import Mathlib

/-!
Shallow embedding of the Mastermind cluster-model core (collector and
cpp-worker variants) used to check the natural-language specification:

* `Couple.update_status` (collector `Couple.cpp`),
* `Backend.update` / `Backend.recalculate` / `Backend.calculate_base_path`
  (collector `Backend.cpp`),
* `FS.update_status` (cpp-worker `FS.cpp`),
* `Group.process_metadata` / `parse_couple` (cpp-worker `Group.cpp`).

Machine `uint64_t` values are modelled as `Nat` with explicit reduction
modulo `2^64` wherever the source performs wrapping arithmetic; `int64_t`
conversions go through `toInt64`; C `double` arithmetic is modelled over
`Rat` (exact); the C `int(double)` conversion is truncation toward zero
(`truncToInt`).
-/

set_option linter.unusedVariables false

namespace Mastermind

/- Mathlib seals the core `Rat` arithmetic operations behind `irreducible`;
unseal them locally so that concrete evaluations go through `decide`. -/
attribute [local semireducible] Rat.add Rat.sub Rat.mul Rat.inv

/-- `2^64`, the modulus of `uint64_t` arithmetic. -/
def U64 : Nat := 18446744073709551616

/-- `2^63`, the first value not representable in `int64_t`. -/
def I64 : Nat := 9223372036854775808

/-- Conversion of a `uint64_t` value to `int64_t` (two's complement wrap). -/
def toInt64 (n : Nat) : Int :=
  if n % U64 < I64 then ((n % U64 : Nat) : Int) else ((n % U64 : Nat) : Int) - (U64 : Int)

/-- `uint64_t` subtraction `a - b` (wraps modulo `2^64`). -/
def usub64 (a b : Nat) : Nat := (a % U64 + (U64 - b % U64)) % U64

/-- C conversion of a floating value to an integer type: truncation toward
zero (`Int.div` truncates toward zero). -/
def truncToInt (q : Rat) : Int := q.num.tdiv (q.den : Int)

/-! ## Collector `Couple::update_status` (src/unnamed/part_002) -/

/-- `Group::Status` as used by the collector couple code. -/
inductive GroupStatus
  | INIT | COUPLED | BAD | BROKEN | RO | MIGRATING
  deriving Repr, DecidableEq

/-- `Couple::Status` (collector `Couple.h`). -/
inductive CoupleStatus
  | INIT | OK | FULL | BAD | BROKEN | RO | FROZEN | MIGRATING
  | SERVICE_ACTIVE | SERVICE_STALLED
  deriving Repr, DecidableEq

/-- The per-group data `Couple::update_status` reads from each member group:
its status, frozen flag, metadata blob (byte vector, compared for byte
equality by `check_metadata_equals`), total space and `full()` flag. -/
structure GroupView where
  status : GroupStatus
  frozen : Bool
  metadata : List Nat
  total_space : Nat
  full : Bool
  deriving Repr, DecidableEq

/-- Shallow embedding of `Couple::update_status` (src/unnamed/part_002,
lines 89-173).  `prev` is the value of `(m_status, m_status_text)` on entry
(the member fields are only conditionally assigned).  The two dead stores of
the source — the `BROKEN` assignment for unmatched total space, and the
whole per-status scan loop — are kept as unused `let` bindings so that the
embedding matches the control flow of the source statement by statement. -/
def Couple.update_status (forbidden_unmatched_group_total_space : Bool)
    (prev : CoupleStatus × String) (groups : List GroupView) :
    CoupleStatus × String :=
  match groups with
  | [] => (CoupleStatus.BAD, "Couple has no groups")
  | g0 :: rest =>
    -- the loop compares m_groups[0]'s metadata with every other group's and
    -- returns at the first mismatch, before the frozen check
    if rest.any (fun g => g.metadata ≠ g0.metadata) then
      (CoupleStatus.BAD, "Groups have different metadata")
    else if (g0 :: rest).any (·.frozen) then
      (CoupleStatus.FROZEN, "Some groups are frozen")
    else if ((g0 :: rest).map (·.status)).all (· = GroupStatus.COUPLED) then
      -- dead store in the source: overwritten by the FULL/OK assignment below
      let after_space : CoupleStatus × String :=
        if forbidden_unmatched_group_total_space ∧
            rest.any (fun g => g.total_space ≠ g0.total_space) then
          (CoupleStatus.BROKEN, "Couple has unequal total space in groups")
        else prev
      if (g0 :: rest).any (·.full) then
        (CoupleStatus.FULL, "Couple is FULL")
      else
        (CoupleStatus.OK, "Couple is OK")
    else
      -- dead store in the source: the loop body assigns m_status per element
      -- but the trailing assignment below always overwrites it
      let scanned : CoupleStatus × String :=
        ((g0 :: rest).map (·.status)).foldl
          (fun acc st =>
            if st = GroupStatus.INIT then
              (CoupleStatus.INIT, "Some groups are uninitialized")
            else if st = GroupStatus.BAD then
              (CoupleStatus.BAD, "Some groups are in state BAD")
            else if st = GroupStatus.BROKEN then
              (CoupleStatus.BROKEN, "Some groups are in state BROKEN")
            else if st = GroupStatus.RO ∨ st = GroupStatus.MIGRATING then
              (CoupleStatus.BAD, "Some groups are read-only")
            else acc)
          prev
      (CoupleStatus.BAD, "Couple is BAD for unknown reason")

/-! ## Collector `Backend.cpp`: stat records and derived state -/

/-- The fields of `BackendStat` (collector `Backend.h`) that participate in
`Backend::init/update/recalculate`.  All counters are `uint64_t`. -/
structure BackendStat where
  backend_id : Nat := 0
  ts_sec : Nat := 0
  ts_usec : Nat := 0
  read_ios : Nat := 0
  write_ios : Nat := 0
  dstat_error : Nat := 0
  vfs_blocks : Nat := 0
  vfs_bavail : Nat := 0
  vfs_bsize : Nat := 0
  base_size : Nat := 0
  records_total : Nat := 0
  records_removed : Nat := 0
  blob_size_limit : Nat := 0
  state : Nat := 0
  read_only : Nat := 0
  last_start_ts_sec : Nat := 0
  last_start_ts_usec : Nat := 0
  ell_cache_write_size : Nat := 0
  ell_disk_write_size : Nat := 0
  ell_cache_read_size : Nat := 0
  ell_disk_read_size : Nat := 0
  stat_commit_rofs_errors : Nat := 0
  data_path : String := ""
  file_path : String := ""
  deriving Repr, DecidableEq

/-- `BackendStat::get_timestamp()`: microseconds, `ts_sec * 1000000 + ts_usec`
in `uint64_t`. -/
def BackendStat.get_timestamp (s : BackendStat) : Nat :=
  (s.ts_sec * 1000000 + s.ts_usec) % U64

/-- Elliptics command rates (`CommandStat`), doubles in the source. -/
structure CommandStat where
  ell_disk_read_rate : Rat := 0
  ell_disk_write_rate : Rat := 0
  ell_net_read_rate : Rat := 0
  ell_net_write_rate : Rat := 0
  deriving Repr, DecidableEq

/-- `CommandStat::calculate(old_stat, new_stat)` (collector `Backend.cpp`,
lines 79-101): no-op when `dt <= 1.0`; otherwise recompute each rate whose
`int64_t` delta is non-negative. -/
def CommandStat.calculate (cs : CommandStat) (old_stat new_stat : BackendStat) :
    CommandStat :=
  let dt : Rat :=
    (new_stat.get_timestamp : Rat) / 1000000 - (old_stat.get_timestamp : Rat) / 1000000
  if dt ≤ 1 then cs
  else
    let disk_read := toInt64 new_stat.ell_disk_read_size - toInt64 old_stat.ell_disk_read_size
    let disk_written := toInt64 new_stat.ell_disk_write_size - toInt64 old_stat.ell_disk_write_size
    let cache_read := toInt64 new_stat.ell_cache_read_size - toInt64 old_stat.ell_cache_read_size
    let cache_written := toInt64 new_stat.ell_cache_write_size - toInt64 old_stat.ell_cache_write_size
    let cs1 :=
      if disk_read ≥ 0 then
        { cs with
          ell_disk_read_rate := (disk_read : Rat) / dt
          ell_net_read_rate :=
            if cache_read ≥ 0 then ((disk_read + cache_read : Int) : Rat) / dt
            else cs.ell_net_read_rate }
      else cs
    if disk_written ≥ 0 then
      { cs1 with
        ell_disk_write_rate := (disk_written : Rat) / dt
        ell_net_write_rate :=
          if cache_written ≥ 0 then ((disk_written + cache_written : Int) : Rat) / dt
          else cs1.ell_net_write_rate }
    else cs1

/-- The derived block `CalculatedBackend` of a collector backend. -/
structure CalculatedBackend where
  read_rps : Int := 0
  write_rps : Int := 0
  max_read_rps : Int := 0
  max_write_rps : Int := 0
  command_stat : CommandStat := {}
  stat_commit_rofs_errors_diff : Nat := 0
  vfs_total_space : Nat := 0
  vfs_free_space : Nat := 0
  vfs_used_space : Nat := 0
  records : Nat := 0
  fragmentation : Rat := 0
  total_space : Int := 0
  used_space : Int := 0
  free_space : Int := 0
  effective_space : Int := 0
  effective_free_space : Int := 0
  base_path : String := ""
  stalled : Bool := false
  deriving Repr, DecidableEq

/-- A collector `Backend`: the stored stat snapshot plus the derived block.
(The node back-reference is represented by passing the node's
`load_average` into `update` explicitly.) -/
structure BackendModel where
  stat : BackendStat := {}
  calculated : CalculatedBackend := {}
  deriving Repr, DecidableEq

/-- `Backend::calculate_base_path(stat)` (collector `Backend.cpp`, lines
341-347): overwrite `base_path` with a non-empty `data_path`, failing that a
non-empty `file_path`; otherwise leave it as it is. -/
def Backend.calculate_base_path (c : CalculatedBackend) (stat : BackendStat) :
    CalculatedBackend :=
  if stat.data_path ≠ "" then { c with base_path := stat.data_path }
  else if stat.file_path ≠ "" then { c with base_path := stat.file_path }
  else c

/-- `Backend::init(stat)` (collector `Backend.cpp`, lines 151-156): store the
first snapshot and derive `base_path` starting from the default-constructed
(empty) derived block.  The textual key is omitted from the model. -/
def Backend.init (stat : BackendStat) : BackendModel :=
  { stat := stat, calculated := Backend.calculate_base_path {} stat }

/-- `Backend::update(stat)` (collector `Backend.cpp`, lines 175-208).
`load_average` is `m_node.get_stat().load_average`.  Note that the source
computes `last_start_old` from the OLD snapshot's `last_start_ts_sec` but the
NEW snapshot's `last_start_ts_usec`; the embedding reproduces this verbatim. -/
def Backend.update (load_average : Rat) (b : BackendModel) (stat : BackendStat) :
    BackendModel :=
  let ts1 : Rat := (b.stat.get_timestamp : Rat) / 1000000
  let ts2 : Rat := (stat.get_timestamp : Rat) / 1000000
  let d_ts : Rat := ts2 - ts1
  let c1 :=
    if d_ts > 1 ∧ stat.dstat_error = 0 then
      let read_rps := truncToInt ((usub64 stat.read_ios b.stat.read_ios : Rat) / d_ts)
      let write_rps := truncToInt ((usub64 stat.write_ios b.stat.write_ios : Rat) / d_ts)
      { b.calculated with
        read_rps := read_rps
        write_rps := write_rps
        max_read_rps := truncToInt (max ((read_rps : Rat) / max load_average (1 / 100)) 100)
        max_write_rps := truncToInt (max ((write_rps : Rat) / max load_average (1 / 100)) 100) }
    else b.calculated
  let c2 := { c1 with command_stat := c1.command_stat.calculate b.stat stat }
  let last_start_old := (b.stat.last_start_ts_sec * 1000000 + stat.last_start_ts_usec) % U64
  let last_start_new := (stat.last_start_ts_sec * 1000000 + stat.last_start_ts_usec) % U64
  let c3 :=
    if last_start_old < last_start_new ∨
        b.stat.stat_commit_rofs_errors > stat.stat_commit_rofs_errors then
      { c2 with stat_commit_rofs_errors_diff := 0 }
    else
      { c2 with stat_commit_rofs_errors_diff :=
          (c2.stat_commit_rofs_errors_diff +
            usub64 stat.stat_commit_rofs_errors b.stat.stat_commit_rofs_errors) % U64 }
  let c4 := Backend.calculate_base_path c3 stat
  { stat := stat, calculated := c4 }

/-- `Backend::recalculate()` (collector `Backend.cpp`, lines 215-242), a pure
function of the stored stat and `config.reserved_space`. -/
def Backend.recalculate (reserved_space : Nat) (b : BackendModel) : BackendModel :=
  let s := b.stat
  let vfs_total_space := (s.vfs_blocks * s.vfs_bsize) % U64
  let vfs_free_space := (s.vfs_bavail * s.vfs_bsize) % U64
  let vfs_used_space := usub64 vfs_total_space vfs_free_space
  let records := usub64 s.records_total s.records_removed
  let fragmentation : Rat := (s.records_removed : Rat) / ((max s.records_total 1 : Nat) : Rat)
  let tuf : Int × Int × Int :=
    if s.blob_size_limit ≠ 0 then
      -- vfs_total_space can be less than blob_size_limit in case of misconfiguration
      let total_space := toInt64 (min s.blob_size_limit vfs_total_space)
      let used_space := toInt64 s.base_size
      (total_space, used_space,
        min (toInt64 vfs_free_space) (max 0 (total_space - used_space)))
    else
      (toInt64 vfs_total_space, toInt64 vfs_used_space, toInt64 vfs_free_space)
  let total_space := tuf.1
  let used_space := tuf.2.1
  let free_space := tuf.2.2
  let share : Rat := (total_space : Rat) / (vfs_total_space : Rat)
  let free_space_req_share : Int := ⌈(reserved_space : Rat) * share⌉
  let effective_space := max 0 (total_space - free_space_req_share)
  let effective_free_space := max (free_space - (total_space - effective_space)) 0
  { b with calculated := { b.calculated with
      vfs_total_space := vfs_total_space
      vfs_free_space := vfs_free_space
      vfs_used_space := vfs_used_space
      records := records
      fragmentation := fragmentation
      total_space := total_space
      used_space := used_space
      free_space := free_space
      effective_space := effective_space
      effective_free_space := effective_free_space } }

/-! ## cpp-worker `FS.cpp` -/

/-- cpp-worker `Backend::Status`. -/
inductive BackendStatus
  | INIT | OK | RO | STALLED | BROKEN
  deriving Repr, DecidableEq

/-- What `FS::update_status` reads from a member backend: its status and
`get_total_space()`. -/
structure FSBackendView where
  status : BackendStatus
  total_space : Nat
  deriving Repr, DecidableEq

/-- cpp-worker `FS::Status`. -/
inductive FSStatus
  | OK | BROKEN
  deriving Repr, DecidableEq

/-- `FS::update_status()` (src/src/cpp-worker/FS.cpp, lines 71-91): add up
`total_space` over the member backends whose status is OK or BROKEN (the
accumulator is `uint64_t`), then `status = (sum <= m_stat.total_space) ? OK
: BROKEN`. -/
def FS.update_status (fs_total_space : Nat) (backends : List FSBackendView) :
    FSStatus :=
  let total_space := backends.foldl
    (fun acc b =>
      if b.status ≠ BackendStatus.OK ∧ b.status ≠ BackendStatus.BROKEN then acc
      else (acc + b.total_space) % U64)
    0
  if total_space ≤ fs_total_space then FSStatus.OK else FSStatus.BROKEN

/-- The mathematical (non-wrapping) sum of `total_space` over the OK/BROKEN
member backends, as the specification describes it. -/
def FS.spaceSum (backends : List FSBackendView) : Nat :=
  ((backends.filter
      (fun b => b.status = BackendStatus.OK ∨ b.status = BackendStatus.BROKEN)).map
    (·.total_space)).sum

/-! ## cpp-worker `Group.cpp` -/

/-- The msgpack object model (msgpack-c 0.5) restricted to the object kinds
the group-metadata decoder inspects; `other` stands for any remaining type
(NIL, NEGATIVE_INTEGER, DOUBLE), identified by its numeric type tag. -/
inductive MsgObj
  | boolean (b : Bool)
  | posInt (n : Nat)
  | raw (s : String)
  | array (elems : List MsgObj)
  | map (entries : List (MsgObj × MsgObj))
  | other (tag : Nat)

/-- msgpack-c 0.5 numeric type tags (`msgpack::type::object_type`), as they
are printed into the diagnostics (`ostr << kv.val.type`). -/
def MsgObj.typeTag : MsgObj → Nat
  | .boolean _ => 1
  | .posInt _ => 2
  | .raw _ => 5
  | .array _ => 6
  | .map _ => 7
  | .other t => t

/-- Conversion of a `uint64_t` value to C `int` (32-bit two's complement),
as in `int(gr_obj.via.u64)`. -/
def toInt32 (n : Nat) : Int :=
  if n % 4294967296 < 2147483648 then ((n % 4294967296 : Nat) : Int)
  else ((n % 4294967296 : Nat) : Int) - 4294967296

/-- `parse_couple` (src/src/cpp-worker/Group.cpp, lines 33-48): the object
must be an ARRAY whose every element is a POSITIVE_INTEGER; the elements are
appended (as C `int`) to `couple`, and the whole vector is sorted ascending.
`none` stands for the source's `false` return. -/
def parse_couple (obj : MsgObj) (couple : List Int) : Option (List Int) :=
  match obj with
  | .array elems =>
    if elems.all (fun e => match e with | .posInt _ => true | _ => false) then
      some ((couple ++ elems.filterMap
          (fun e => match e with | .posInt n => some (toInt32 n) | _ => none)).insertionSort
        (· ≤ ·))
    else none
  | _ => none

/-- The local decode variables of `Group::process_metadata` (lines 142-147).
`ns` models the C++ variable for the metadata `namespace` field. -/
structure GroupMetaFields where
  version : Int := 0
  couple : List Int := []
  ns : String := ""
  frozen : Bool := false
  service_migrating : Bool := false
  service_job_id : String := ""
  deriving Repr, DecidableEq

/-- The inner scan of the `service` map (lines 192-219): a RAW value equal to
`"MIGRATING"` under `status` sets the migrating flag; `job_id` must be RAW,
anything else fails with a keyed diagnostic; unknown keys are skipped. -/
def process_service_kvs (migrating : Bool) (job_id : String) :
    List (MsgObj × MsgObj) → (Bool × String) ⊕ String
  | [] => Sum.inl (migrating, job_id)
  | (k, v) :: rest =>
    match k with
    | .raw s =>
      if s = "status" then
        match v with
        | .raw st =>
          process_service_kvs (if st = "MIGRATING" then true else migrating) job_id rest
        | _ => process_service_kvs migrating job_id rest
      else if s = "job_id" then
        match v with
        | .raw j => process_service_kvs migrating j rest
        | _ => Sum.inr ("invalid 'job_id' value type " ++ toString v.typeTag)
      else process_service_kvs migrating job_id rest
    | _ => process_service_kvs migrating job_id rest

/-- The scan of the top-level metadata map (lines 150-227): dispatch on the
recognised keys, stopping with a keyed diagnostic at the first wrongly typed
value; non-RAW keys and unrecognised keys are skipped. -/
def process_map_kvs (f : GroupMetaFields) :
    List (MsgObj × MsgObj) → GroupMetaFields ⊕ String
  | [] => Sum.inl f
  | (k, v) :: rest =>
    match k with
    | .raw s =>
      if s = "version" then
        match v with
        | .posInt n => process_map_kvs { f with version := toInt32 n } rest
        | _ => Sum.inr ("invalid 'version' value type " ++ toString v.typeTag)
      else if s = "couple" then
        match parse_couple v f.couple with
        | some c => process_map_kvs { f with couple := c } rest
        | none => Sum.inr "couldn't parse 'couple'\n"
      else if s = "namespace" then
        match v with
        | .raw nsv => process_map_kvs { f with ns := nsv } rest
        | _ => Sum.inr ("invalid 'namespace' value type " ++ toString v.typeTag)
      else if s = "frozen" then
        match v with
        | .boolean b => process_map_kvs { f with frozen := b } rest
        | _ => Sum.inr ("invalid 'frozen' value type " ++ toString v.typeTag)
      else if s = "service" then
        match v with
        | .map srv =>
          match process_service_kvs f.service_migrating f.service_job_id srv with
          | Sum.inl mj =>
            process_map_kvs
              { f with service_migrating := mj.1, service_job_id := mj.2 } rest
          | Sum.inr e => Sum.inr e
        | _ => Sum.inr ("invalid 'service' value type " ++ toString v.typeTag)
      else process_map_kvs f rest
    | _ => process_map_kvs f rest

/-- Dispatch on the shape of the unpacked metadata object (lines 149-234): a
MAP is scanned key by key; a bare ARRAY is the legacy format (`version = 1`,
`namespace = "default"`, `couple = <array>`); any other type falls through
and leaves every field at its default. -/
def group_decode (obj : MsgObj) : GroupMetaFields ⊕ String :=
  match obj with
  | .map kvs => process_map_kvs {} kvs
  | .array _ =>
    match parse_couple obj [] with
    | some c => Sum.inl { version := 1, ns := "default", couple := c }
    | none => Sum.inr "couldn't parse couple (format of version 1)"
  | _ => Sum.inl {}

/-- `Couple::check(groups)` (src/unnamed/part_002, lines 55-64): the decoded
couple list equals the couple's group id list, compared by size and element
by element. -/
def Couple.check (group_ids decoded : List Int) : Bool :=
  group_ids.length == decoded.length &&
    (group_ids.zip decoded).all (fun p => p.1 == p.2)

/-- Rendering of an id list inside the couple-mismatch diagnostic (each id
followed by a space, lines 254-258). -/
def render_ids (ids : List Int) : String :=
  ids.foldl (fun s i => s ++ toString i ++ " ") ""

/-- The diagnostic built at lines 253-259 when the decoded couple list does
not match the bound couple. -/
def couple_mismatch_text (decoded existing : List Int) : String :=
  "couple in group metadata [ " ++ render_ids decoded ++
    "] doesn't match to existing one [ " ++ render_ids existing ++ "]"

/-- cpp-worker `BackendStat::Status` as read by the group status loop
(`OK`/`RO`/`BAD` are inspected explicitly; `STALLED` stands for every other
value). -/
inductive NBStatus
  | OK | RO | BAD | STALLED
  deriving Repr, DecidableEq

/-- The group state mutated by `Group::process_metadata`.  `ns` models
`m_namespace`. -/
structure GroupState where
  clean : Bool := false
  status : GroupStatus := GroupStatus.INIT
  status_text : String := ""
  version : Int := 0
  frozen : Bool := false
  ns : String := ""
  service_migrating : Bool := false
  service_job_id : String := ""
  deriving Repr, DecidableEq

/-- The success-path status derivation of `Group::process_metadata` (lines
270-316).  The source loop breaks at the first BAD backend, so `have_ro` /
`have_other` reflect only the scanned prefix; since they are consulted only
when no backend is BAD, the `any` formulation below is equivalent. -/
def group_derive_status (forbidden_dht_groups : Bool) (backends : List NBStatus)
    (g : GroupState) : GroupState :=
  if backends.isEmpty then
    { g with status := GroupStatus.INIT, status_text := "no node backends" }
  else if backends.length > 1 ∧ forbidden_dht_groups then
    { g with
      status := GroupStatus.BROKEN
      status_text := "DHT groups are forbidden but the group has " ++
        toString backends.length ++ " backends" }
  else
    let have_bad := backends.any (· == NBStatus.BAD)
    let have_ro := backends.any (· == NBStatus.RO)
    let have_other :=
      backends.any (fun b => b != NBStatus.OK && b != NBStatus.RO && b != NBStatus.BAD)
    if have_bad then
      { g with
        status := GroupStatus.BROKEN
        status_text := "some of backends are in state BROKEN" }
    else if have_ro then
      if g.service_migrating then
        { g with
          status := GroupStatus.MIGRATING
          status_text := "group is migrating, job id is '" ++ g.service_job_id ++ "'" }
      else
        { g with
          status := GroupStatus.RO
          status_text := "group is read-only because it has read-only backends" }
    else if have_other then
      { g with
        status := GroupStatus.BAD
        status_text :=
          "group is in state BAD because some of backends are not in state OK" }
    else
      { g with status := GroupStatus.COUPLED, status_text := "group is OK" }

/-- `Group::process_metadata()` (src/src/cpp-worker/Group.cpp, lines 99-317)
from the point where the metadata blob has been msgpack-unpacked into `obj`.
`couple_group_ids` is the bound couple's id list when `m_couple != NULL`;
`backends` are the member backends' statuses.  The second component of the
result is the id list passed to `Storage::create_couple` when the group is
unbound. -/
def Group.process_metadata (forbidden_dht_groups : Bool)
    (couple_group_ids : Option (List Int)) (backends : List NBStatus)
    (obj : MsgObj) (g : GroupState) : GroupState × Option (List Int) :=
  if g.clean then (g, none)
  else
    let g1 := { g with clean := true, status_text := "" }
    match group_decode obj with
    | Sum.inr e => ({ g1 with status := GroupStatus.BAD, status_text := e }, none)
    | Sum.inl f =>
      let g2 := { g1 with
                  version := f.version
                  frozen := f.frozen
                  ns := f.ns
                  service_migrating := f.service_migrating
                  service_job_id := f.service_job_id }
      match couple_group_ids with
      | some ids =>
        if Couple.check ids f.couple then
          (group_derive_status forbidden_dht_groups backends g2, none)
        else
          ({ g2 with
             status := GroupStatus.BAD
             status_text := couple_mismatch_text f.couple ids }, none)
      | none =>
        (group_derive_status forbidden_dht_groups backends g2, some f.couple)

/-- A recognised top-level metadata entry whose value fails the validation
performed by the map scan, restricted to the fields the specification names:
`couple`, `namespace`, `frozen`, `service` (including a wrongly typed
`job_id` inside it). -/
def badMetaKV (kv : MsgObj × MsgObj) : Bool :=
  match kv with
  | (.raw s, v) =>
    if s = "couple" then (parse_couple v []).isNone
    else if s = "namespace" then
      match v with | .raw _ => false | _ => true
    else if s = "frozen" then
      match v with | .boolean _ => false | _ => true
    else if s = "service" then
      match v with
      | .map srv =>
        srv.any (fun p =>
          match p with
          | (.raw k, j) =>
            k == "job_id" && (match j with | .raw _ => false | _ => true)
          | _ => false)
      | _ => true
    else false
  | _ => false

/-! ## Theorems: collector couple status -/

/-- **C1** (counterexample).  A couple with a single group in status `INIT`
(metadata equal trivially, not frozen, not all `COUPLED`): the claim says
`update_status` surfaces the worst group status, `INIT`; the code produces
`BAD` ("Couple is BAD for unknown reason"), because the trailing assignment
after the scan loop always executes. -/
theorem couple_scan_single_init_counterexample :
    (Couple.update_status false (CoupleStatus.OK, "")
        [⟨GroupStatus.INIT, false, [], 0, false⟩]).1 = CoupleStatus.BAD ∧
      CoupleStatus.BAD ≠ CoupleStatus.INIT := by
  decide

/-- **C1** (amended).  For every couple with at least one group, whose groups
all have pairwise equal metadata blobs, none of which is frozen, and which
are not all in status `COUPLED`, `Couple::update_status` sets the couple
status to `BAD` with text "Couple is BAD for unknown reason": the per-status
scan loop's assignments are dead stores, unconditionally overwritten by the
trailing assignment. -/
theorem couple_update_status_scan_path_always_bad
    (cfg : Bool) (prev : CoupleStatus × String) (groups : List GroupView)
    (hne : groups ≠ [])
    (hmeta : ∀ g ∈ groups, ∀ g' ∈ groups, g.metadata = g'.metadata)
    (hfrozen : ∀ g ∈ groups, g.frozen = false)
    (hnc : ∃ g ∈ groups, g.status ≠ GroupStatus.COUPLED) :
    Couple.update_status cfg prev groups =
      (CoupleStatus.BAD, "Couple is BAD for unknown reason") := by
  match groups with
  | [] => exact absurd rfl hne
  | g0 :: rest =>
    have hm : (rest.any fun g => decide ¬(g.metadata = g0.metadata)) = false := by
      simp only [List.any_eq_false, decide_eq_true_eq, not_not]
      intro g hg
      exact hmeta g (List.mem_cons_of_mem _ hg) g0 (List.mem_cons_self _ _)
    have hf : ((g0 :: rest).any (·.frozen)) = false := by
      simp only [List.any_eq_false]
      intro g hg
      simpa using hfrozen g hg
    have hc : (((g0 :: rest).map (·.status)).all fun s => decide (s = GroupStatus.COUPLED)) =
        false := by
      rcases hnc with ⟨g, hg, hgs⟩
      refine (Bool.eq_false_iff).2 fun hall => hgs ?_
      have := List.all_eq_true.1 hall g.status (List.mem_map_of_mem _ hg)
      exact of_decide_eq_true this
    simp only [Couple.update_status, hm, hf, hc, Bool.false_eq_true, if_false]

/-- **C1** (witness for the amended theorem). -/
theorem couple_update_status_scan_path_always_bad_witness :
    Couple.update_status true (CoupleStatus.INIT, "init")
      [⟨GroupStatus.COUPLED, false, [7], 5, false⟩,
       ⟨GroupStatus.RO, false, [7], 5, false⟩] =
      (CoupleStatus.BAD, "Couple is BAD for unknown reason") :=
  couple_update_status_scan_path_always_bad true (CoupleStatus.INIT, "init") _
    (by decide) (by decide) (by decide) (by decide)

/-- **C2**.  Code-bug evidence: two groups, both `COUPLED`, equal metadata,
not frozen, `forbidden_unmatched_group_total_space` set, total spaces 100 and
200, neither full.  The claim (and the flag's evident intent) requires
`BROKEN`; the source assigns `BROKEN` but then unconditionally overwrites it
with the FULL/OK decision, so the couple ends `OK`. -/
theorem couple_unmatched_total_space_dead_store_eval :
    Couple.update_status true (CoupleStatus.INIT, "")
      [⟨GroupStatus.COUPLED, false, [1], 100, false⟩,
       ⟨GroupStatus.COUPLED, false, [1], 200, false⟩] =
      (CoupleStatus.OK, "Couple is OK") := by
  decide

/-! ## Theorems: collector backend update -/

/-- **C3**.  Code-bug evidence: old snapshot `last_start = (1 s, 0 us)`,
`rofs_errors = 5`; new snapshot `last_start = (1 s, 500 us)`,
`rofs_errors = 7`.  Per the claim, `old_start = 1000000 < 1000500 =
new_start`, so the diff must reset to 0.  The source computes
`last_start_old` from the old `sec` but the NEW `usec` (`stat.
last_start_ts_usec`), sees two equal values, and accumulates the diff to 2
instead. -/
theorem backend_update_rofs_equal_second_restart_eval :
    (Backend.update 1
        { stat := { last_start_ts_sec := 1, stat_commit_rofs_errors := 5 } }
        { last_start_ts_sec := 1, last_start_ts_usec := 500,
          stat_commit_rofs_errors := 7 }).calculated.stat_commit_rofs_errors_diff = 2 := by
  decide

/-- `calculate_base_path` leaves `read_rps` untouched. -/
theorem calculate_base_path_read_rps (c : CalculatedBackend) (stat : BackendStat) :
    (Backend.calculate_base_path c stat).read_rps = c.read_rps := by
  unfold Backend.calculate_base_path
  split
  · rfl
  · split <;> rfl

/-- `calculate_base_path` leaves `write_rps` untouched. -/
theorem calculate_base_path_write_rps (c : CalculatedBackend) (stat : BackendStat) :
    (Backend.calculate_base_path c stat).write_rps = c.write_rps := by
  unfold Backend.calculate_base_path
  split
  · rfl
  · split <;> rfl

/-- `calculate_base_path` leaves `max_read_rps` untouched. -/
theorem calculate_base_path_max_read_rps (c : CalculatedBackend) (stat : BackendStat) :
    (Backend.calculate_base_path c stat).max_read_rps = c.max_read_rps := by
  unfold Backend.calculate_base_path
  split
  · rfl
  · split <;> rfl

/-- `calculate_base_path` leaves `max_write_rps` untouched. -/
theorem calculate_base_path_max_write_rps (c : CalculatedBackend) (stat : BackendStat) :
    (Backend.calculate_base_path c stat).max_write_rps = c.max_write_rps := by
  unfold Backend.calculate_base_path
  split
  · rfl
  · split <;> rfl

/-- `calculate_base_path` leaves `command_stat` untouched. -/
theorem calculate_base_path_command_stat (c : CalculatedBackend) (stat : BackendStat) :
    (Backend.calculate_base_path c stat).command_stat = c.command_stat := by
  unfold Backend.calculate_base_path
  split
  · rfl
  · split <;> rfl

/-- What `calculate_base_path` does to `base_path`. -/
theorem calculate_base_path_base_path (c : CalculatedBackend) (stat : BackendStat) :
    (Backend.calculate_base_path c stat).base_path =
      if stat.data_path ≠ "" then stat.data_path
      else if stat.file_path ≠ "" then stat.file_path
      else c.base_path := by
  unfold Backend.calculate_base_path
  by_cases hd : stat.data_path = "" <;> by_cases hf : stat.file_path = "" <;> simp [hd, hf]

/-- **C4** (counterexample).  Old snapshot: `ts = 0`, `read_ios = 300`,
`read_rps = 0`; new snapshot: `ts = 4*10^12 s`, `read_ios = 100`, equal (all
zero) `last_start` timestamps.  The claim's hypotheses hold (`new.read_ios <
old.read_ios`, equal `last_start`), yet `read_rps` does not keep its value:
the guard is on `d_ts`, not on `last_start`, and the `uint64_t` delta wraps
to `2^64 - 200`, giving `read_rps = 4611686`. -/
theorem backend_update_read_rps_last_start_counterexample :
    ({ stat := { read_ios := 300 } } : BackendModel).calculated.read_rps = 0 ∧
    ({ ts_sec := 4000000000000, read_ios := 100 } : BackendStat).last_start_ts_sec =
      ({ read_ios := 300 } : BackendStat).last_start_ts_sec ∧
    ({ ts_sec := 4000000000000, read_ios := 100 } : BackendStat).last_start_ts_usec =
      ({ read_ios := 300 } : BackendStat).last_start_ts_usec ∧
    ({ ts_sec := 4000000000000, read_ios := 100 } : BackendStat).read_ios <
      ({ read_ios := 300 } : BackendStat).read_ios ∧
    (Backend.update 1 { stat := { read_ios := 300 } }
        { ts_sec := 4000000000000, read_ios := 100 }).calculated.read_rps = 4611686 := by
  decide

/-- **C4** (amended).  For every call to `Backend::update` where the new
snapshot has `new.read_ios < old.read_ios` and the snapshot timestamps
(`ts_sec`/`ts_usec`) of the two snapshots are equal, `read_rps` keeps its
previous value (nothing, in particular no negative rate, is written). -/
theorem backend_update_read_rps_equal_timestamps_unchanged
    (la : Rat) (b : BackendModel) (stat : BackendStat)
    (hios : stat.read_ios < b.stat.read_ios)
    (hts : stat.get_timestamp = b.stat.get_timestamp) :
    (Backend.update la b stat).calculated.read_rps = b.calculated.read_rps := by
  have hng : ¬(((stat.get_timestamp : Rat) / 1000000 -
      (b.stat.get_timestamp : Rat) / 1000000 > 1) ∧ stat.dstat_error = 0) := by
    rw [hts, sub_self]
    intro h
    exact absurd h.1 (by norm_num)
  simp only [Backend.update]
  by_cases h3 : ((b.stat.last_start_ts_sec * 1000000 + stat.last_start_ts_usec) % U64 <
      (stat.last_start_ts_sec * 1000000 + stat.last_start_ts_usec) % U64 ∨
      b.stat.stat_commit_rofs_errors > stat.stat_commit_rofs_errors) <;>
    simp [hng, h3, Backend.calculate_base_path] <;>
    by_cases hd : stat.data_path = "" <;> by_cases hf : stat.file_path = "" <;>
    simp [hd, hf]

/-- **C4** (witness for the amended theorem). -/
theorem backend_update_read_rps_equal_timestamps_unchanged_witness :
    (Backend.update 1 { stat := { read_ios := 300 }, calculated := { read_rps := 21 } }
        { read_ios := 100 }).calculated.read_rps = 21 := by
  have h := backend_update_read_rps_equal_timestamps_unchanged 1
      { stat := { read_ios := 300 }, calculated := { read_rps := 21 } } { read_ios := 100 }
      (by decide) (by decide)
  exact h.trans rfl

/-- **C5**.  For two successive `Backend::update` snapshots with
`dt = (new_ts - old_ts) / 1e6 ≤ 1.0` seconds, none of the eight rate fields
(`read_rps`, `write_rps`, `max_read_rps`, `max_write_rps`, and the four
`CommandStat` rates) is modified. -/
theorem backend_update_small_dt_rates_unchanged
    (la : Rat) (b : BackendModel) (stat : BackendStat)
    (hdt : (stat.get_timestamp : Rat) / 1000000 -
      (b.stat.get_timestamp : Rat) / 1000000 ≤ 1) :
    (Backend.update la b stat).calculated.read_rps = b.calculated.read_rps ∧
    (Backend.update la b stat).calculated.write_rps = b.calculated.write_rps ∧
    (Backend.update la b stat).calculated.max_read_rps = b.calculated.max_read_rps ∧
    (Backend.update la b stat).calculated.max_write_rps = b.calculated.max_write_rps ∧
    (Backend.update la b stat).calculated.command_stat.ell_disk_read_rate =
      b.calculated.command_stat.ell_disk_read_rate ∧
    (Backend.update la b stat).calculated.command_stat.ell_disk_write_rate =
      b.calculated.command_stat.ell_disk_write_rate ∧
    (Backend.update la b stat).calculated.command_stat.ell_net_read_rate =
      b.calculated.command_stat.ell_net_read_rate ∧
    (Backend.update la b stat).calculated.command_stat.ell_net_write_rate =
      b.calculated.command_stat.ell_net_write_rate := by
  have hng : ¬(((stat.get_timestamp : Rat) / 1000000 -
      (b.stat.get_timestamp : Rat) / 1000000 > 1) ∧ stat.dstat_error = 0) :=
    fun h => absurd h.1 (not_lt.2 hdt)
  simp only [Backend.update, CommandStat.calculate]
  by_cases h3 : ((b.stat.last_start_ts_sec * 1000000 + stat.last_start_ts_usec) % U64 <
      (stat.last_start_ts_sec * 1000000 + stat.last_start_ts_usec) % U64 ∨
      b.stat.stat_commit_rofs_errors > stat.stat_commit_rofs_errors) <;>
    simp [hng, h3, hdt, Backend.calculate_base_path] <;>
    by_cases hd : stat.data_path = "" <;> by_cases hf : stat.file_path = "" <;>
    simp [hd, hf]

/-- **C5** (witness). -/
theorem backend_update_small_dt_rates_unchanged_witness :
    (Backend.update 1
        { stat := { ts_sec := 1000 },
          calculated := { read_rps := 5, command_stat := { ell_net_read_rate := 7 } } }
        { ts_sec := 1000, ts_usec := 500000 }).calculated.read_rps = 5 ∧
    (Backend.update 1
        { stat := { ts_sec := 1000 },
          calculated := { read_rps := 5, command_stat := { ell_net_read_rate := 7 } } }
        { ts_sec := 1000, ts_usec := 500000 }).calculated.command_stat.ell_net_read_rate = 7 := by
  have h := backend_update_small_dt_rates_unchanged 1
      { stat := { ts_sec := 1000 },
        calculated := { read_rps := 5, command_stat := { ell_net_read_rate := 7 } } }
      { ts_sec := 1000, ts_usec := 500000 }
      (by decide)
  exact ⟨h.1.trans rfl, (h.2.2.2.2.2.2.1).trans rfl⟩

/-- **C10**.  `base_path` is only ever overwritten by a non-empty
`data_path`, failing that a non-empty `file_path`: a snapshot with both
empty leaves it at its previous value in `Backend::update` (and at the empty
default in `Backend::init`), and a non-empty `base_path` is never cleared. -/
theorem backend_base_path_preserved
    (la : Rat) (b : BackendModel) (stat : BackendStat) :
    ((stat.data_path = "" ∧ stat.file_path = "") →
        (Backend.update la b stat).calculated.base_path = b.calculated.base_path) ∧
      (b.calculated.base_path ≠ "" → (Backend.update la b stat).calculated.base_path ≠ "") ∧
      ((Backend.update la b stat).calculated.base_path =
        if stat.data_path ≠ "" then stat.data_path
        else if stat.file_path ≠ "" then stat.file_path
        else b.calculated.base_path) ∧
      ((stat.data_path = "" ∧ stat.file_path = "") →
        (Backend.init stat).calculated.base_path = "") := by
  have hupd : (Backend.update la b stat).calculated.base_path =
      if stat.data_path ≠ "" then stat.data_path
      else if stat.file_path ≠ "" then stat.file_path
      else b.calculated.base_path := by
    simp only [Backend.update]
    by_cases h1 : ((stat.get_timestamp : Rat) / 1000000 -
        (b.stat.get_timestamp : Rat) / 1000000 > 1 ∧ stat.dstat_error = 0) <;>
      by_cases h3 : ((b.stat.last_start_ts_sec * 1000000 + stat.last_start_ts_usec) % U64 <
          (stat.last_start_ts_sec * 1000000 + stat.last_start_ts_usec) % U64 ∨
          b.stat.stat_commit_rofs_errors > stat.stat_commit_rofs_errors) <;>
      simp [h1, h3, calculate_base_path_base_path]
  have hinit : (Backend.init stat).calculated.base_path =
      if stat.data_path ≠ "" then stat.data_path
      else if stat.file_path ≠ "" then stat.file_path
      else "" := by
    simp [Backend.init, calculate_base_path_base_path]
  refine ⟨fun h => ?_, fun hb => ?_, hupd, fun h => ?_⟩
  · rw [hupd]
    simp [h.1, h.2]
  · rw [hupd]
    split_ifs with h1 h2
    · exact h1
    · exact h2
    · exact hb
  · rw [hinit]
    simp [h.1, h.2]

/-- **C10** (witness). -/
theorem backend_base_path_preserved_witness :
    (Backend.update 1 { calculated := { base_path := "/data/old" } }
        {}).calculated.base_path =
      ({ calculated := { base_path := "/data/old" } } : BackendModel).calculated.base_path ∧
    (Backend.update 1 { calculated := { base_path := "/data/old" } }
        {}).calculated.base_path ≠ "" ∧
    (Backend.init {}).calculated.base_path = "" := by
  have h := backend_base_path_preserved 1 { calculated := { base_path := "/data/old" } } {}
  exact ⟨h.1 ⟨rfl, rfl⟩, h.2.1 (by decide), h.2.2.2 ⟨rfl, rfl⟩⟩

/-! ## Theorems: cpp-worker FS status -/

/-- The wrapping fold of `FS::update_status` equals the plain sum of the
OK/BROKEN backends' spaces whenever that sum does not overflow `uint64_t`. -/
theorem fs_foldl_eq_spaceSum (backends : List FSBackendView) (acc : Nat)
    (hacc : acc + FS.spaceSum backends < U64) :
    backends.foldl
      (fun acc b =>
        if b.status ≠ BackendStatus.OK ∧ b.status ≠ BackendStatus.BROKEN then acc
        else (acc + b.total_space) % U64)
      acc = acc + FS.spaceSum backends := by
  induction backends generalizing acc with
  | nil => simp [FS.spaceSum]
  | cons b rest ih =>
    by_cases hb : b.status = BackendStatus.OK ∨ b.status = BackendStatus.BROKEN
    · have hsum : FS.spaceSum (b :: rest) = b.total_space + FS.spaceSum rest := by
        simp [FS.spaceSum, List.filter_cons, hb]
      rw [hsum] at hacc ⊢
      have hne : ¬(b.status ≠ BackendStatus.OK ∧ b.status ≠ BackendStatus.BROKEN) := by
        tauto
      simp only [List.foldl_cons, if_neg hne]
      rw [Nat.mod_eq_of_lt (by omega)]
      rw [ih (acc + b.total_space) (by omega)]
      omega
    · have hsum : FS.spaceSum (b :: rest) = FS.spaceSum rest := by
        simp [FS.spaceSum, List.filter_cons, hb]
      rw [hsum] at hacc ⊢
      have hcond : b.status ≠ BackendStatus.OK ∧ b.status ≠ BackendStatus.BROKEN := by
        tauto
      simp only [List.foldl_cons, if_pos hcond]
      exact ih acc hacc

/-- **C6**.  After `FS::update_status`, the status is `BROKEN` iff the sum of
`total_space` over the member backends in status OK or BROKEN exceeds the
FS's own `total_space`, and `OK` otherwise (assuming the sum does not
overflow `uint64_t`). -/
theorem fs_update_status_broken_iff_overcommit
    (fs_total_space : Nat) (backends : List FSBackendView)
    (hsum : FS.spaceSum backends < U64) :
    (FS.update_status fs_total_space backends = FSStatus.BROKEN ↔
      FS.spaceSum backends > fs_total_space) ∧
    (FS.update_status fs_total_space backends = FSStatus.OK ↔
      ¬ FS.spaceSum backends > fs_total_space) := by
  unfold FS.update_status
  rw [fs_foldl_eq_spaceSum backends 0 (by simpa using hsum)]
  simp only [Nat.zero_add]
  split_ifs with h
  · simp [Nat.not_lt.2 h]
  · simp [Nat.not_le.1 h]

/-- **C6** (witness): the spec's FS-overcommit scenario — `total_space =
1000`, two OK backends of 600 and 500. -/
theorem fs_update_status_broken_iff_overcommit_witness :
    (FS.update_status 1000
        [⟨BackendStatus.OK, 600⟩, ⟨BackendStatus.OK, 500⟩] = FSStatus.BROKEN ↔
      FS.spaceSum [⟨BackendStatus.OK, 600⟩, ⟨BackendStatus.OK, 500⟩] > 1000) ∧
    (FS.update_status 1000
        [⟨BackendStatus.OK, 600⟩, ⟨BackendStatus.OK, 500⟩] = FSStatus.OK ↔
      ¬ FS.spaceSum [⟨BackendStatus.OK, 600⟩, ⟨BackendStatus.OK, 500⟩] > 1000) :=
  fs_update_status_broken_iff_overcommit 1000 _ (by decide)

/-! ## Theorems: collector backend recalculate -/

/-- `toInt64` is the identity on values below `2^63`. -/
theorem toInt64_of_lt {n : Nat} (h : n < I64) : toInt64 n = (n : Int) := by
  have hU : n < U64 := lt_trans h (by norm_num [I64, U64])
  simp [toInt64, Nat.mod_eq_of_lt hU, h]

/-- **C9**.  After `Backend::recalculate`, `effective_space ≤ total_space ≤
vfs_total_space` (given that `vfs_blocks * vfs_bsize` is positive — the
source divides by it — and fits in `int64_t`), and `recalculate` is
idempotent: applying it twice to the same stored stat gives the same derived
fields. -/
theorem backend_recalculate_space_chain_and_idempotent
    (reserved_space : Nat) (b : BackendModel)
    (hfit : b.stat.vfs_blocks * b.stat.vfs_bsize < I64)
    (hpos : 0 < b.stat.vfs_blocks * b.stat.vfs_bsize) :
    ((Backend.recalculate reserved_space b).calculated.effective_space ≤
        (Backend.recalculate reserved_space b).calculated.total_space ∧
      (Backend.recalculate reserved_space b).calculated.total_space ≤
        ((Backend.recalculate reserved_space b).calculated.vfs_total_space : Int)) ∧
    Backend.recalculate reserved_space (Backend.recalculate reserved_space b) =
      Backend.recalculate reserved_space b := by
  refine ⟨?_, rfl⟩
  have hU : b.stat.vfs_blocks * b.stat.vfs_bsize < U64 :=
    lt_trans hfit (by norm_num [I64, U64])
  have hmod : (b.stat.vfs_blocks * b.stat.vfs_bsize) % U64 =
      b.stat.vfs_blocks * b.stat.vfs_bsize := Nat.mod_eq_of_lt hU
  simp only [Backend.recalculate, hmod]
  by_cases hbl : b.stat.blob_size_limit = 0 <;> simp only [hbl, if_pos, if_neg, ne_eq,
    not_true_eq_false, not_false_eq_true, if_true, if_false, ite_true, ite_false]
  · rw [toInt64_of_lt hfit]
    constructor
    · have hT0 : (0 : Int) ≤ ((b.stat.vfs_blocks * b.stat.vfs_bsize : Nat) : Int) :=
        Int.natCast_nonneg _
      have hC0 : (0 : Int) ≤ ⌈(reserved_space : Rat) *
          ((((b.stat.vfs_blocks * b.stat.vfs_bsize : Nat) : Int) : Rat) /
            ((b.stat.vfs_blocks * b.stat.vfs_bsize : Nat) : Rat))⌉ := by
        apply Int.ceil_nonneg
        apply mul_nonneg (Nat.cast_nonneg _)
        apply div_nonneg _ (Nat.cast_nonneg _)
        push_cast
        positivity
      exact max_le hT0 (sub_le_self _ hC0)
    · exact le_refl _
  · rw [toInt64_of_lt (lt_of_le_of_lt (min_le_right _ _) hfit)]
    constructor
    · have hT0 : (0 : Int) ≤
          ((min b.stat.blob_size_limit (b.stat.vfs_blocks * b.stat.vfs_bsize) : Nat) :
            Int) :=
        Int.natCast_nonneg _
      have hC0 : (0 : Int) ≤ ⌈(reserved_space : Rat) *
          ((((min b.stat.blob_size_limit (b.stat.vfs_blocks * b.stat.vfs_bsize) : Nat) :
            Int) : Rat) /
            ((b.stat.vfs_blocks * b.stat.vfs_bsize : Nat) : Rat))⌉ := by
        apply Int.ceil_nonneg
        apply mul_nonneg (Nat.cast_nonneg _)
        apply div_nonneg _ (Nat.cast_nonneg _)
        push_cast
        positivity
      exact max_le hT0 (sub_le_self _ hC0)
    · exact_mod_cast Nat.cast_le.2 (min_le_right _ _)

/-- **C9** (witness). -/
theorem backend_recalculate_space_chain_and_idempotent_witness :
    ((Backend.recalculate 4096
        { stat := { vfs_blocks := 100, vfs_bavail := 50, vfs_bsize := 4096,
                    blob_size_limit := 200000,
                    base_size := 1000 } }).calculated.effective_space ≤
      (Backend.recalculate 4096
        { stat := { vfs_blocks := 100, vfs_bavail := 50, vfs_bsize := 4096,
                    blob_size_limit := 200000,
                    base_size := 1000 } }).calculated.total_space ∧
      (Backend.recalculate 4096
        { stat := { vfs_blocks := 100, vfs_bavail := 50, vfs_bsize := 4096,
                    blob_size_limit := 200000,
                    base_size := 1000 } }).calculated.total_space ≤
        ((Backend.recalculate 4096
          { stat := { vfs_blocks := 100, vfs_bavail := 50, vfs_bsize := 4096,
                      blob_size_limit := 200000,
                      base_size := 1000 } }).calculated.vfs_total_space : Int)) ∧
    Backend.recalculate 4096 (Backend.recalculate 4096
        { stat := { vfs_blocks := 100, vfs_bavail := 50, vfs_bsize := 4096,
                    blob_size_limit := 200000, base_size := 1000 } }) =
      Backend.recalculate 4096
        { stat := { vfs_blocks := 100, vfs_bavail := 50, vfs_bsize := 4096,
                    blob_size_limit := 200000, base_size := 1000 } } :=
  backend_recalculate_space_chain_and_idempotent 4096
    { stat := { vfs_blocks := 100, vfs_bavail := 50, vfs_bsize := 4096,
                blob_size_limit := 200000, base_size := 1000 } }
    (by decide) (by decide)

/-! ## Theorems: cpp-worker group metadata -/

/-- A string starting with a non-empty prefix is non-empty. -/
theorem string_append_ne_empty (a b : String) (ha : a ≠ "") : a ++ b ≠ "" := by
  intro h
  apply ha
  apply String.ext
  have hd := congrArg String.data h
  rw [String.data_append] at hd
  exact (List.append_eq_nil.1 hd).1

/-- `Couple::check` succeeding means the two id lists are equal. -/
theorem couple_check_eq {a b : List Int} (h : Couple.check a b = true) : a = b := by
  unfold Couple.check at h
  simp only [Bool.and_eq_true, beq_iff_eq, List.all_eq_true] at h
  obtain ⟨hlen, hall⟩ := h
  apply List.ext_getElem hlen
  intro i h1 h2
  have hzi : i < (a.zip b).length := by
    rw [List.length_zip]
    omega
  have hz : (a[i], b[i]) ∈ a.zip b := by
    have hg : (a.zip b)[i] = (a[i], b[i]) := List.getElem_zip
    rw [← hg]
    exact List.getElem_mem hzi
  simpa using hall _ hz

/-- **C7**.  For every (dirty) group bound to an existing couple whose id
list differs from the decoded metadata couple list, `Group::process_metadata`
sets the group status to `BAD` with the diagnostic naming both id lists, and
the success-path status derivation is skipped. -/
theorem group_process_metadata_couple_mismatch_bad
    (forbidden_dht_groups : Bool) (ids : List Int) (backends : List NBStatus)
    (obj : MsgObj) (g : GroupState) (f : GroupMetaFields)
    (hclean : g.clean = false)
    (hdec : group_decode obj = Sum.inl f)
    (hne : ids ≠ f.couple) :
    (Group.process_metadata forbidden_dht_groups (some ids) backends obj g).1.status =
        GroupStatus.BAD ∧
      (Group.process_metadata forbidden_dht_groups (some ids) backends
          obj g).1.status_text = couple_mismatch_text f.couple ids := by
  have hchk : Couple.check ids f.couple = false :=
    Bool.eq_false_iff.2 fun h => hne (couple_check_eq h)
  simp [Group.process_metadata, hclean, hdec, hchk]

/-- **C7** (witness): bound couple `[1, 2]`, metadata couple `[1, 3]`. -/
theorem group_process_metadata_couple_mismatch_bad_witness :
    (Group.process_metadata false (some [1, 2]) [NBStatus.OK]
        (MsgObj.map [(MsgObj.raw "couple",
          MsgObj.array [MsgObj.posInt 1, MsgObj.posInt 3])]) {}).1.status =
        GroupStatus.BAD ∧
      (Group.process_metadata false (some [1, 2]) [NBStatus.OK]
          (MsgObj.map [(MsgObj.raw "couple",
            MsgObj.array [MsgObj.posInt 1, MsgObj.posInt 3])]) {}).1.status_text =
        couple_mismatch_text [1, 3] [1, 2] :=
  group_process_metadata_couple_mismatch_bad false [1, 2] [NBStatus.OK] _ {}
    ⟨0, [1, 3], "", false, false, ""⟩ rfl (by decide) (by decide)

/-- A `parse_couple` failure does not depend on the accumulator. -/
theorem parse_couple_none_iff (v : MsgObj) (acc : List Int) :
    parse_couple v acc = none ↔ parse_couple v [] = none := by
  unfold parse_couple
  cases v <;> simp

/-- Whenever `process_service_kvs` fails, the diagnostic is non-empty. -/
theorem process_service_kvs_error_ne (srv : List (MsgObj × MsgObj)) :
    ∀ (migrating : Bool) (job_id : String) (e : String),
      process_service_kvs migrating job_id srv = Sum.inr e → e ≠ "" := by
  induction srv with
  | nil =>
    intro migrating job_id e h
    simp [process_service_kvs] at h
  | cons p rest ih =>
    intro migrating job_id e h
    obtain ⟨k, v⟩ := p
    cases k <;> simp only [process_service_kvs] at h
    case raw s =>
      split at h
      · split at h
        · exact ih _ _ _ h
        · exact ih _ _ _ h
      · split at h
        · split at h
          · exact ih _ _ _ h
          · rw [Sum.inr.injEq] at h
            exact h ▸ string_append_ne_empty _ _ (by decide)
        · exact ih _ _ _ h
    all_goals exact ih _ _ _ h

/-- A wrongly typed `job_id` somewhere in the `service` map makes
`process_service_kvs` fail. -/
theorem process_service_kvs_bad (srv : List (MsgObj × MsgObj)) :
    ∀ (migrating : Bool) (job_id : String),
      (srv.any fun p =>
        match p with
        | (.raw k, j) => k == "job_id" && (match j with | .raw _ => false | _ => true)
        | _ => false) = true →
      ∃ e, process_service_kvs migrating job_id srv = Sum.inr e := by
  induction srv with
  | nil =>
    intro migrating job_id hbad
    simp at hbad
  | cons p rest ih =>
    intro migrating job_id hbad
    obtain ⟨k, v⟩ := p
    rw [List.any_cons, Bool.or_eq_true] at hbad
    cases k <;> simp only [process_service_kvs]
    case raw s =>
      split
      · split
        · exact ih _ _ (hbad.resolve_left (by simp_all))
        · exact ih _ _ (hbad.resolve_left (by simp_all))
      · split
        · split
          · exact ih _ _ (hbad.resolve_left (by simp_all))
          · exact ⟨_, rfl⟩
        · exact ih _ _ (hbad.resolve_left (by simp_all))
    all_goals exact ih _ _ (hbad.resolve_left (by simp))

/-- A wrongly typed `couple`/`namespace`/`frozen`/`service` (or `job_id`)
entry anywhere in the metadata map makes the scan fail with a non-empty
diagnostic. -/
theorem process_map_kvs_bad (kvs : List (MsgObj × MsgObj)) :
    ∀ f : GroupMetaFields, kvs.any badMetaKV = true →
      ∃ e, process_map_kvs f kvs = Sum.inr e ∧ e ≠ "" := by
  induction kvs with
  | nil =>
    intro f hbad
    simp at hbad
  | cons kv rest ih =>
    intro f hbad
    obtain ⟨k, v⟩ := kv
    rw [List.any_cons, Bool.or_eq_true] at hbad
    cases k with
    | raw s =>
      by_cases h1 : s = "version"
      · subst h1
        cases v with
        | posInt n =>
          have hred : process_map_kvs f ((MsgObj.raw "version", MsgObj.posInt n) :: rest) =
              process_map_kvs { f with version := toInt32 n } rest := by
            simp only [process_map_kvs, if_true]
          rw [hred]
          exact ih _ (hbad.resolve_left (by simp [badMetaKV]))
        | boolean b => exact ⟨_, rfl, string_append_ne_empty _ _ (by decide)⟩
        | raw s2 => exact ⟨_, rfl, string_append_ne_empty _ _ (by decide)⟩
        | array xs => exact ⟨_, rfl, string_append_ne_empty _ _ (by decide)⟩
        | map m => exact ⟨_, rfl, string_append_ne_empty _ _ (by decide)⟩
        | other t => exact ⟨_, rfl, string_append_ne_empty _ _ (by decide)⟩
      · by_cases h2 : s = "couple"
        · subst h2
          rcases hc : parse_couple v f.couple with _ | c
          · refine ⟨"couldn't parse 'couple'\n", ?_, by decide⟩
            simp only [process_map_kvs, if_true, hc]
            repeat rw [if_neg (by decide)]
          · have hred : process_map_kvs f ((MsgObj.raw "couple", v) :: rest) =
                process_map_kvs { f with couple := c } rest := by
              simp only [process_map_kvs, if_true, hc]
              repeat rw [if_neg (by decide)]
            rw [hred]
            refine ih _ (hbad.resolve_left ?_)
            intro hh
            have hh2 : (parse_couple v []).isNone = true := hh
            rw [Option.isNone_iff_eq_none] at hh2
            exact absurd ((parse_couple_none_iff v f.couple).2 hh2) (by simp [hc])
        · by_cases h3 : s = "namespace"
          · subst h3
            cases v with
            | raw s2 =>
              have hred : process_map_kvs f ((MsgObj.raw "namespace", MsgObj.raw s2) :: rest) =
                  process_map_kvs { f with ns := s2 } rest := by
                simp only [process_map_kvs, if_true]
                repeat rw [if_neg (by decide)]
              rw [hred]
              exact ih _ (hbad.resolve_left (by simp [badMetaKV]))
            | boolean b => exact ⟨_, rfl, string_append_ne_empty _ _ (by decide)⟩
            | posInt n => exact ⟨_, rfl, string_append_ne_empty _ _ (by decide)⟩
            | array xs => exact ⟨_, rfl, string_append_ne_empty _ _ (by decide)⟩
            | map m => exact ⟨_, rfl, string_append_ne_empty _ _ (by decide)⟩
            | other t => exact ⟨_, rfl, string_append_ne_empty _ _ (by decide)⟩
          · by_cases h4 : s = "frozen"
            · subst h4
              cases v with
              | boolean b =>
                have hred : process_map_kvs f
                    ((MsgObj.raw "frozen", MsgObj.boolean b) :: rest) =
                    process_map_kvs { f with frozen := b } rest := by
                  simp only [process_map_kvs, if_true]
                  repeat rw [if_neg (by decide)]
                rw [hred]
                exact ih _ (hbad.resolve_left (by simp [badMetaKV]))
              | raw s2 => exact ⟨_, rfl, string_append_ne_empty _ _ (by decide)⟩
              | posInt n => exact ⟨_, rfl, string_append_ne_empty _ _ (by decide)⟩
              | array xs => exact ⟨_, rfl, string_append_ne_empty _ _ (by decide)⟩
              | map m => exact ⟨_, rfl, string_append_ne_empty _ _ (by decide)⟩
              | other t => exact ⟨_, rfl, string_append_ne_empty _ _ (by decide)⟩
            · by_cases h5 : s = "service"
              · subst h5
                cases v with
                | map srv =>
                  rcases hsrv : process_service_kvs f.service_migrating
                      f.service_job_id srv with mj | e2
                  · have hred : process_map_kvs f
                        ((MsgObj.raw "service", MsgObj.map srv) :: rest) =
                        process_map_kvs
                          { f with service_migrating := mj.1, service_job_id := mj.2 }
                          rest := by
                      simp only [process_map_kvs, if_true, hsrv]
                      repeat rw [if_neg (by decide)]
                    rw [hred]
                    refine ih _ (hbad.resolve_left ?_)
                    intro hh
                    obtain ⟨e3, he3⟩ := process_service_kvs_bad srv
                      f.service_migrating f.service_job_id hh
                    rw [hsrv] at he3
                    cases he3
                  · refine ⟨e2, ?_, process_service_kvs_error_ne srv _ _ _ hsrv⟩
                    simp only [process_map_kvs, if_true, hsrv]
                    repeat rw [if_neg (by decide)]
                | raw s2 => exact ⟨_, rfl, string_append_ne_empty _ _ (by decide)⟩
                | boolean b => exact ⟨_, rfl, string_append_ne_empty _ _ (by decide)⟩
                | posInt n => exact ⟨_, rfl, string_append_ne_empty _ _ (by decide)⟩
                | array xs => exact ⟨_, rfl, string_append_ne_empty _ _ (by decide)⟩
                | other t => exact ⟨_, rfl, string_append_ne_empty _ _ (by decide)⟩
              · have hred : process_map_kvs f ((MsgObj.raw s, v) :: rest) =
                    process_map_kvs f rest := by
                  simp only [process_map_kvs]
                  rw [if_neg h1, if_neg h2, if_neg h3, if_neg h4, if_neg h5]

                rw [hred]
                refine ih _ (hbad.resolve_left ?_)
                simp [badMetaKV, h2, h3, h4, h5]
    | boolean b => exact ih _ (hbad.resolve_left (by simp [badMetaKV]))
    | posInt n => exact ih _ (hbad.resolve_left (by simp [badMetaKV]))
    | array xs => exact ih _ (hbad.resolve_left (by simp [badMetaKV]))
    | map m => exact ih _ (hbad.resolve_left (by simp [badMetaKV]))
    | other t => exact ih _ (hbad.resolve_left (by simp [badMetaKV]))

/-- **C8** (counterexample).  The metadata map `{couple: [3, 1]}` — an
UNSORTED array of positive integers — is accepted by
`Group::process_metadata`: the decode succeeds (the source sorts the vector
itself), the stored couple list is `[1, 3]`, and the group is not `BAD` (it
derives `INIT` from having no backends).  This refutes "accepts `couple`
only when it is a sorted-ascending array". -/
theorem parse_couple_unsorted_accepted_counterexample :
    (Group.process_metadata false none []
        (MsgObj.map [(MsgObj.raw "couple",
          MsgObj.array [MsgObj.posInt 3, MsgObj.posInt 1])]) {}).1.status =
        GroupStatus.INIT ∧
      (Group.process_metadata false none []
          (MsgObj.map [(MsgObj.raw "couple",
            MsgObj.array [MsgObj.posInt 3, MsgObj.posInt 1])]) {}).2 = some [1, 3] ∧
      GroupStatus.INIT ≠ GroupStatus.BAD := by
  decide

/-- **C8** (amended).  `Group::process_metadata` accepts the metadata field
`couple` whenever it is an array of msgpack positive integers — in any
order, sorting the decoded ids ascending itself — and, for any metadata map
in which `couple`, `namespace`, `frozen`, `service` or `service.job_id` has
a mismatching type, a (dirty) group's status becomes `BAD` with a non-empty
diagnostic message. -/
theorem group_metadata_couple_validation :
    (∀ (ids : List Nat) (acc : List Int),
      ∃ l, parse_couple (MsgObj.array (ids.map MsgObj.posInt)) acc = some l ∧
        List.Sorted (· ≤ ·) l) ∧
    (∀ (forbidden_dht_groups : Bool) (couple_group_ids : Option (List Int))
        (backends : List NBStatus) (kvs : List (MsgObj × MsgObj)) (g : GroupState),
      g.clean = false → kvs.any badMetaKV = true →
      (Group.process_metadata forbidden_dht_groups couple_group_ids backends
          (MsgObj.map kvs) g).1.status = GroupStatus.BAD ∧
        (Group.process_metadata forbidden_dht_groups couple_group_ids backends
            (MsgObj.map kvs) g).1.status_text ≠ "") := by
  constructor
  · intro ids acc
    have hall : ((ids.map MsgObj.posInt).all
        (fun e => match e with | .posInt _ => true | _ => false)) = true := by
      induction ids with
      | nil => rfl
      | cons x xs ihx => simp
    refine ⟨(acc ++ (ids.map MsgObj.posInt).filterMap
        (fun e => match e with | .posInt n => some (toInt32 n) | _ => none)).insertionSort
        (· ≤ ·), ?_, List.sorted_insertionSort _ _⟩
    simp only [parse_couple, hall, if_true]
  · intro fdht cids backends kvs g hclean hbad
    obtain ⟨e, he, hne⟩ := process_map_kvs_bad kvs {} hbad
    have hdec : group_decode (MsgObj.map kvs) = Sum.inr e := by
      simp [group_decode, he]
    constructor <;> simp [Group.process_metadata, hclean, hdec, hne]

/-- **C8** (witness for the amended theorem). -/
theorem group_metadata_couple_validation_witness :
    (∃ l, parse_couple (MsgObj.array ([3, 1].map MsgObj.posInt)) [] = some l ∧
        List.Sorted (· ≤ ·) l) ∧
    ((Group.process_metadata false none [] (MsgObj.map
        [(MsgObj.raw "frozen", MsgObj.posInt 0)]) {}).1.status = GroupStatus.BAD ∧
      (Group.process_metadata false none [] (MsgObj.map
          [(MsgObj.raw "frozen", MsgObj.posInt 0)]) {}).1.status_text ≠ "") :=
  ⟨group_metadata_couple_validation.1 [3, 1] [],
    group_metadata_couple_validation.2 false none [] _ {} rfl (by decide)⟩

end Mastermind
